import Mathlib

/-!
Shallow embedding of the Cadock docking pipeline (src/src/cadock.py).

The repository's own code is orchestration: sequencing, file-path
bookkeeping, subprocess invocation and naive text parsing of external
tool output.  The external tools (RDKit, obabel, p2rank, vina, PyMOL)
are modelled as oracles recording their observable outcome (exit codes,
produced text), and the pipeline's observable behaviour is modelled as
a trace of events (rows written to the results table, files loaded and
saved, subprocesses invoked) together with an optional uncaught Python
exception terminating the run.
-/

deriving instance DecidableEq for Except

namespace Cadock

/-- Python whitespace characters relevant to str.split with no argument. -/
def isSpaceChar (c : Char) : Bool :=
  c == ' ' || c == '\t' || c == '\n' || c == '\r' || c == '\x0b' || c == '\x0c'

/-- Accumulator pass splitting a character list into maximal non-whitespace
runs, as Python str.split() does (empty tokens are never produced). -/
def tokensAux : List Char → List Char → List (List Char)
  | cur, [] => if cur.isEmpty then [] else [cur.reverse]
  | cur, c :: cs =>
    if isSpaceChar c then
      if cur.isEmpty then tokensAux [] cs else cur.reverse :: tokensAux [] cs
    else tokensAux (c :: cur) cs

/-- Python str.split() with no separator argument: whitespace-separated
fields, empties dropped. -/
def pySplit (s : String) : List String :=
  (tokensAux [] s.data).map List.asString

/-- Python str.startswith on plain strings: literal, case- and
column-exact character-by-character comparison. -/
def py_startswith (s p : String) : Bool :=
  p.data.isPrefixOf s.data

/-- A numeric string in the sense of the result-table contract: optional
sign, decimal digits with at most one decimal point, at least one digit.
Covers every score vina prints (for example "-7.5"). -/
def isNumericStr (s : String) : Bool :=
  let body : List Char :=
    match s.data with
    | c :: rest => if c == '-' || c == '+' then rest else c :: rest
    | [] => []
  body.any Char.isDigit &&
  body.all (fun c => Char.isDigit c || c == '.') &&
  decide ((body.filter (fun c => c == '.')).length ≤ 1)

/-- Outcome of the cheminformatics-toolkit calls made by
generate_minimized_pdb on one SMILES string: whether Chem.MolFromSmiles
returns a molecule (it returns None on a malformed string), and whether
each of EmbedMolecule, UFFOptimizeMolecule and SanitizeMol completes
without raising (each call sits in its own try/except in the source). -/
structure LigPrepOracle where
  parseOk : Bool
  embedOk : Bool
  optimizeOk : Bool
  sanitizeOk : Bool
deriving DecidableEq

/-- cadock.generate_minimized_pdb, lines 12-35.  Returns the boolean the
function returns together with the list of files it writes (MolToPDBFile
runs only on the all-steps-succeeded path).  The function is total: every
failure of an external step is caught and turned into the return value
False, so no exception escapes. -/
def generate_minimized_pdb (o : LigPrepOracle) (pdb_filename : String) :
    Bool × List String :=
  if !o.parseOk then (false, [])
  else if !o.embedOk then (false, [])
  else if !o.optimizeOk then (false, [])
  else if !o.sanitizeOk then (false, [])
  else (true, [pdb_filename])

/-- cadock.remove_hetatm, lines 44-48, acting on the input file's lines:
copy each line to the output unless it starts with the literal prefix
"HETATM".  Written as the same one-pass loop as the source. -/
def remove_hetatm : List String → List String
  | [] => []
  | line :: rest =>
    if py_startswith line "HETATM" then remove_hetatm rest
    else line :: remove_hetatm rest

/-- subprocess.run(..., check=True): exit status zero returns normally,
any other exit status raises CalledProcessError. -/
def subprocessRunCheck (exitCode : Nat) : Except String Unit :=
  if exitCode = 0 then Except.ok () else Except.error "CalledProcessError"

/-- cadock.convert_pdb_to_pdbqt_receptor, lines 50-51: one obabel
invocation with check=True; the argument is the converter's exit status. -/
def convert_pdb_to_pdbqt_receptor (exitCode : Nat) : Except String Unit :=
  subprocessRunCheck exitCode

/-- cadock.convert_pdb_to_pdbqt_ligand, lines 53-54: one obabel
invocation with check=True; the argument is the converter's exit status. -/
def convert_pdb_to_pdbqt_ligand (exitCode : Nat) : Except String Unit :=
  subprocessRunCheck exitCode

/-- cadock.run_command_with_output, lines 56-63: the subprocess's merged
stdout/stderr lines are streamed to the console and persisted verbatim to
the log file, then the exit status is returned.  Modelled on the
observable outcome: (log file content, exit status). -/
def run_command_with_output (streamedLines : List String) (exitCode : Nat) :
    List String × Nat :=
  (streamedLines, exitCode)

/-- The p2rank predictions CSV as pandas sees it: a header row of column
names and a list of data rows of cells. -/
structure Table where
  headers : List String
  rows : List (List String)
deriving DecidableEq

/-- Position of a column name in the header, exact-match (pandas column
lookup raises KeyError when the name is absent). -/
def colIndex (headers : List String) (name : String) : Option Nat :=
  headers.findIdx? (fun h => h = name)

/-- df[name].iloc[r]: KeyError when the column name is absent, IndexError
when there is no row r, otherwise the cell. -/
def colCell (t : Table) (name : String) (r : Nat) : Except String String :=
  match colIndex t.headers name with
  | none => Except.error "KeyError"
  | some j =>
    match t.rows[r]? with
    | none => Except.error "IndexError"
    | some row =>
      match row[j]? with
      | none => Except.error "IndexError"
      | some v => Except.ok v

/-- A pocket center as threaded into the vina command line (the source
converts the cells with float() and back with str(); the claims under
study concern which cells are read, so the cell text is carried). -/
abbrev Center := String × String × String

/-- cadock.perform_docking lines 107-108: read the three coordinate
columns, whose names carry three leading spaces, from the first data row
of the p2rank predictions table.  An empty table or a missing column
raises (IndexError / KeyError), uncaught in the source. -/
def getCenter (t : Table) : Except String Center :=
  match colCell t "   center_x" 0 with
  | Except.error e => Except.error e
  | Except.ok x =>
    match colCell t "   center_y" 0 with
    | Except.error e => Except.error e
    | Except.ok y =>
      match colCell t "   center_z" 0 with
      | Except.error e => Except.error e
      | Except.ok z => Except.ok (x, y, z)

/-- Observable actions of the pipeline: ligand format conversion,
a vina invocation (carrying the center it was given), a row written to
docking_results.txt, and the PyMOL calls (reinitialize / load / save,
with png renders recorded as file saves). -/
inductive Event where
  | convertLigand (i : Nat)
  | vinaRun (i : Nat) (c : Center)
  | writeRow (smiles score : String)
  | reinit
  | loadFile (path : String)
  | saveFile (path : String)
deriving DecidableEq

/-- Path of vina's --out pose file for index i (0-based; the source
numbers files from 1): folder/ligand_(i+1)_out.pdbqt. -/
def vina_out_path (folder : String) (i : Nat) : String :=
  folder ++ "/ligand_" ++ toString (i + 1) ++ "_out.pdbqt"

/-- Path of the cleaned receptor: folder/receptor.pdb. -/
def receptor_pdb_path (folder receptor : String) : String :=
  folder ++ "/" ++ receptor ++ ".pdb"

/-- Path of the combined best-pose file the docking loop saves:
folder/receptor_ligand_(i+1)_best.pdb. -/
def best_pose_path (folder receptor : String) (i : Nat) : String :=
  folder ++ "/" ++ receptor ++ "_ligand_" ++ toString (i + 1) ++ "_best.pdb"

/-- The log scan of cadock.perform_docking lines 153-157: the first log
line that starts with the literal prefix of three spaces followed by the
digit 1, as the for/break loop in the source finds it. -/
def findScoreLine : List String → Option String
  | [] => none
  | l :: ls => if py_startswith l "   1" then some l else findScoreLine ls

/-- Score extraction from a vina log (perform_docking lines 152-157):
"N/A" when no line matches, otherwise line.split()[1] of the first
matching line — which raises IndexError when that line has fewer than
two whitespace-separated fields. -/
def scoreFromLog (lines : List String) : Except String String :=
  match findScoreLine lines with
  | none => Except.ok "N/A"
  | some l =>
    match (pySplit l)[1]? with
    | some t => Except.ok t
    | none => Except.error "IndexError"

/-- Outcome of the external calls made for one ligand inside the docking
loop: the obabel exit status for the ligand conversion, the vina exit
status, and the lines vina streamed (the content of vina_log_(i+1).txt). -/
structure LigandRun where
  convExit : Nat
  vinaExit : Nat
  logLines : List String
deriving DecidableEq

/-- The per-ligand score as perform_docking lines 148-161 compute it:
run vina, then on exit status zero scan the just-written log, otherwise
record the sentinel "Error". -/
def dockScore (r : LigandRun) : Except String String :=
  let streamed := run_command_with_output r.logLines r.vinaExit
  if streamed.2 = 0 then scoreFromLog streamed.1 else Except.ok "Error"

/-- perform_docking lines 164-170: write the ligand's result row, then
reinitialize PyMOL, load the cleaned receptor and the ligand's vina
output pose and save the combined best-pose file. -/
def rowAndCombine (folder receptor : String) (i : Nat)
    (smiles score : String) : List Event :=
  [Event.writeRow smiles score,
   Event.reinit,
   Event.loadFile (receptor_pdb_path folder receptor),
   Event.loadFile (vina_out_path folder i),
   Event.saveFile (best_pose_path folder receptor i)]

/-- One iteration of the docking loop (perform_docking lines 121-170) for
the ligand at 0-based index i: convert the ligand (check=True, so a
non-zero obabel exit raises), run vina, compute the score (an IndexError
from the log scan also raises), then write the row and save the combined
pose.  Returns the events of this iteration and the exception, if any,
that aborted it. -/
def dockOne (folder receptor : String) (c : Center) (i : Nat)
    (smiles : String) (r : LigandRun) : List Event × Option String :=
  match convert_pdb_to_pdbqt_ligand r.convExit with
  | Except.error e => ([Event.convertLigand (i + 1)], some e)
  | Except.ok _ =>
    match dockScore r with
    | Except.error e =>
      ([Event.convertLigand (i + 1), Event.vinaRun (i + 1) c], some e)
    | Except.ok score =>
      ([Event.convertLigand (i + 1), Event.vinaRun (i + 1) c] ++
        rowAndCombine folder receptor i smiles score, none)

/-- The docking loop over the whole input list (perform_docking line 121:
for i, smiles in enumerate(smiles_list)).  An exception in one iteration
ends the run there; otherwise the iterations' events concatenate. -/
def dockLoop (folder receptor : String) (c : Center) :
    Nat → List (String × LigandRun) → List Event × Option String
  | _, [] => ([], none)
  | i, p :: rest =>
    match dockOne folder receptor c i p.1 p.2 with
    | (evs, some e) => (evs, some e)
    | (evs, none) =>
      let t := dockLoop folder receptor c (i + 1) rest
      (evs ++ t.1, t.2)

/-- The (smiles, score) rows written to docking_results.txt during a
trace, in order. -/
def rowsOf (tr : List Event) : List (String × String) :=
  tr.filterMap fun e =>
    match e with
    | Event.writeRow s sc => some (s, sc)
    | _ => none

/-- Content of docking_results.txt after the run: the file is opened once
in write (truncate) mode, the fixed header is written, and then each row
is the comma-join of SMILES and score (lines 117-119 and 164). -/
def results_file (tr : List Event) : List String :=
  "SMILES,Docking Score" :: (rowsOf tr).map (fun p => p.1 ++ "," ++ p.2)

/-- The ligand-preparation loop of perform_docking lines 77-84: for each
input SMILES, in order, call generate_minimized_pdb with the file name
folder/ligand_(i+1).pdb; collect the SMILES that succeeded (valid_smiles)
and the ligand pdb files actually written. -/
def prep_loop (folder : String) :
    Nat → List (String × LigPrepOracle) → List String × List String
  | _, [] => ([], [])
  | i, p :: rest =>
    let r := generate_minimized_pdb p.2 (folder ++ "/ligand_" ++ toString (i + 1) ++ ".pdb")
    let t := prep_loop folder (i + 1) rest
    ((if r.1 then p.1 :: t.1 else t.1), r.2 ++ t.2)

/-- The valid_smiles list perform_docking builds at lines 77-84. -/
def valid_smiles (smiles_list : List String) (os : List LigPrepOracle) :
    List String :=
  (prep_loop "docking_results" 0 (smiles_list.zip os)).1

/-- The ligand pdb files the preparation loop writes. -/
def prep_files (smiles_list : List String) (os : List LigPrepOracle) :
    List String :=
  (prep_loop "docking_results" 0 (smiles_list.zip os)).2

/-- Outcome of every external interaction of one perform_docking run:
the per-SMILES ligand-preparation oracles, whether the p2rank prank
script exists, the p2rank exit status, the predictions table p2rank
wrote, the obabel exit status for the receptor conversion, and the
per-ligand conversion/vina outcomes.  The receptor download and rename
(lines 88-92) are modelled as having succeeded. -/
structure RunWorld where
  prepOracles : List LigPrepOracle
  prankExists : Bool
  p2rankExit : Nat
  predictions : Table
  recConvExit : Nat
  ligandRuns : List LigandRun
deriving DecidableEq

/-- cadock.perform_docking, lines 65-170.  Note the source computes
valid_smiles (lines 77-84) and then never uses it: the docking loop at
line 121 iterates over smiles_list, so every input index, valid or not,
reaches ligand conversion and docking. -/
def perform_docking (w : RunWorld) (smiles_list : List String)
    (PDB_ID : String) : List Event × Option String :=
  let folder := "docking_results"
  let _prep := prep_loop folder 0 (smiles_list.zip w.prepOracles)
  if w.prankExists = false then ([], some "FileNotFoundError")
  else
    match subprocessRunCheck w.p2rankExit with
    | Except.error e => ([], some e)
    | Except.ok _ =>
      match getCenter w.predictions with
      | Except.error e => ([], some e)
      | Except.ok c =>
        match convert_pdb_to_pdbqt_receptor w.recConvExit with
        | Except.error e => ([], some e)
        | Except.ok _ => dockLoop folder PDB_ID c 0 (smiles_list.zip w.ligandRuns)

/-- First pass of cadock.visualize_results, lines 176-187: per ligand
index, reinitialize, load folder/receptor_ligand_(i+1).pdbqt (the name
built at line 178) and the cleaned receptor, then render a png. -/
def visualize_pass1 (n : Nat) (receptor_name folder_name : String) :
    List Event :=
  ((List.range n).map fun i =>
    [Event.reinit,
     Event.loadFile (folder_name ++ "/" ++ receptor_name ++ "_ligand_" ++ toString (i + 1) ++ ".pdbqt"),
     Event.loadFile (folder_name ++ "/" ++ receptor_name ++ ".pdb"),
     Event.saveFile (folder_name ++ "/" ++ receptor_name ++ "_ligand_" ++ toString (i + 1) ++ "_image.png")]).flatten

/-- Second pass of cadock.visualize_results, lines 190-200: load the
combined best-pose file and the unfiltered receptor, align, render. -/
def visualize_pass2 (n : Nat) (receptor_name folder_name : String) :
    List Event :=
  ((List.range n).map fun i =>
    [Event.reinit,
     Event.loadFile (folder_name ++ "/" ++ receptor_name ++ "_ligand_" ++ toString (i + 1) ++ "_best.pdb"),
     Event.loadFile (folder_name ++ "/" ++ receptor_name ++ "_dirty.pdb"),
     Event.saveFile (folder_name ++ "/alignment_ligand_" ++ toString (i + 1) ++ ".png")]).flatten

/-- cadock.visualize_results, lines 172-200. -/
def visualize_results (smiles_list : List String)
    (receptor_name folder_name : String) : List Event :=
  visualize_pass1 smiles_list.length receptor_name folder_name ++
    visualize_pass2 smiles_list.length receptor_name folder_name

/-- Score extraction as claim C5 words it (spec side, for comparison
with scoreFromLog): the second whitespace-separated field of the first
log line whose leading whitespace-token is exactly "1", or "N/A" when no
such line exists. -/
def claimScore (lines : List String) : Option String :=
  match lines.find? (fun l => (pySplit l).head? == some "1") with
  | none => some "N/A"
  | some l => (pySplit l)[1]?

/-- The docking engine's output contract for the ranked-results table:
every log line starting with the three-spaces-then-1 marker carries a
numeric score as its second whitespace-separated field. -/
def WellFormedLog (lines : List String) : Prop :=
  ∀ l ∈ lines, py_startswith l "   1" = true →
    ∃ t, (pySplit l)[1]? = some t ∧ isNumericStr t = true

/-! Helper lemmas. -/

/-- The source's for/break scan over the log equals a first-match search
with the three-spaces-then-1 predicate. -/
lemma findScoreLine_eq_find (lines : List String) :
    findScoreLine lines = lines.find? (fun l => py_startswith l "   1") := by
  induction lines with
  | nil => rfl
  | cons l ls ih =>
    by_cases h : py_startswith l "   1" = true
    · simp [findScoreLine, List.find?, h]
    · simp only [Bool.not_eq_true] at h
      simp [findScoreLine, List.find?, h, ih]

/-- On a well-formed engine log the score extraction cannot raise and
yields either a numeric score or the sentinel "N/A". -/
lemma scoreFromLog_wellFormed {lines : List String} (h : WellFormedLog lines) :
    ∃ t, scoreFromLog lines = Except.ok t ∧ (isNumericStr t = true ∨ t = "N/A") := by
  unfold scoreFromLog
  rw [findScoreLine_eq_find]
  cases hf : lines.find? (fun l => py_startswith l "   1") with
  | none => exact ⟨"N/A", rfl, Or.inr rfl⟩
  | some l =>
    obtain ⟨t, ht, hnum⟩ :=
      h l (List.mem_of_find?_eq_some hf) (by simpa using List.find?_some hf)
    exact ⟨t, by simp [ht], Or.inl hnum⟩

/-- On a well-formed log the per-ligand score computation cannot raise
and lands in the three permitted classes. -/
lemma dockScore_wellFormed {r : LigandRun} (h : WellFormedLog r.logLines) :
    ∃ t, dockScore r = Except.ok t ∧
      (isNumericStr t = true ∨ t = "N/A" ∨ t = "Error") := by
  unfold dockScore run_command_with_output
  by_cases hv : r.vinaExit = 0
  · obtain ⟨t, ht, hc⟩ := scoreFromLog_wellFormed h
    exact ⟨t, by simp [hv, ht], by tauto⟩
  · exact ⟨"Error", by simp [hv], by tauto⟩

/-- Shape of one successful docking iteration. -/
lemma dockOne_ok {folder receptor : String} {c : Center} {i : Nat}
    {smiles t : String} {r : LigandRun}
    (hc : r.convExit = 0) (ht : dockScore r = Except.ok t) :
    dockOne folder receptor c i smiles r =
      ([Event.convertLigand (i + 1), Event.vinaRun (i + 1) c] ++
        rowAndCombine folder receptor i smiles t, none) := by
  simp [dockOne, convert_pdb_to_pdbqt_ligand, subprocessRunCheck, hc, ht]

/-- Rows distribute over trace concatenation. -/
lemma rowsOf_append (a b : List Event) :
    rowsOf (a ++ b) = rowsOf a ++ rowsOf b := by
  simp [rowsOf, List.filterMap_append]

/-- One successful iteration writes exactly its own row. -/
lemma rowsOf_chunk (folder receptor : String) (c : Center) (i n : Nat)
    (smiles t : String) :
    rowsOf ([Event.convertLigand n, Event.vinaRun n c] ++
      rowAndCombine folder receptor i smiles t) = [(smiles, t)] := by
  simp [rowsOf, rowAndCombine, List.filterMap]

/-- Componentwise indexing of a zipped list. -/
lemma getElem?_zip_some {α β : Type} :
    ∀ (as : List α) (bs : List β) (j : Nat) (a : α) (b : β),
      as[j]? = some a → bs[j]? = some b → (as.zip bs)[j]? = some (a, b) := by
  intro as
  induction as with
  | nil => intro bs j a b h; simp at h
  | cons x xs ih =>
    intro bs j a b h1 h2
    cases bs with
    | nil => simp at h2
    | cons y ys =>
      cases j with
      | zero =>
        simp at h1 h2
        simp [List.zip, h1, h2]
      | succ j' =>
        simp at h1 h2
        simpa using ih ys j' a b (by simpa using h1) (by simpa using h2)

/-- Every vina invocation of one docking iteration carries the center the
iteration was given. -/
lemma dockOne_vina_center {folder receptor : String} {c : Center} {i : Nat}
    {smiles : String} {r : LigandRun} {k : Nat} {c' : Center}
    (h : Event.vinaRun k c' ∈ (dockOne folder receptor c i smiles r).1) :
    c' = c := by
  unfold dockOne at h
  cases hcv : convert_pdb_to_pdbqt_ligand r.convExit with
  | error e => rw [hcv] at h; simp at h
  | ok u =>
    rw [hcv] at h
    cases hds : dockScore r with
    | error e => rw [hds] at h; simp at h; tauto
    | ok t =>
      rw [hds] at h
      simp [rowAndCombine] at h
      tauto

/-- Every vina invocation of the docking loop carries the center the run
computed once. -/
lemma dockLoop_vina_center {folder receptor : String} {c : Center} :
    ∀ (ps : List (String × LigandRun)) (i : Nat) {k : Nat} {c' : Center},
      Event.vinaRun k c' ∈ (dockLoop folder receptor c i ps).1 → c' = c := by
  intro ps
  induction ps with
  | nil => intro i k c' h; simp [dockLoop] at h
  | cons p rest ih =>
    intro i k c' h
    unfold dockLoop at h
    cases hd : dockOne folder receptor c i p.1 p.2 with
    | mk evs err =>
      cases err with
      | some e =>
        rw [hd] at h
        simp at h
        exact dockOne_vina_center (by rw [hd]; exact h)
      | none =>
        rw [hd] at h
        simp at h
        cases h with
        | inl h => exact dockOne_vina_center (by rw [hd]; exact h)
        | inr h => exact ih (i + 1) h

/-- Master lemma for the docking loop on a run in which every ligand
conversion exits zero and every engine log is well formed: no exception,
one row per processed pair in order, scores in the permitted classes,
and each ligand's row is written immediately after its vina invocation. -/
lemma dockLoop_ok {folder receptor : String} {c : Center} :
    ∀ (ps : List (String × LigandRun)) (i : Nat),
      (∀ p ∈ ps, (p.2).convExit = 0) →
      (∀ p ∈ ps, WellFormedLog (p.2).logLines) →
      ∃ scores : List String,
        scores.length = ps.length ∧
        (dockLoop folder receptor c i ps).2 = none ∧
        rowsOf (dockLoop folder receptor c i ps).1 = (ps.map Prod.fst).zip scores ∧
        (∀ sc ∈ scores, isNumericStr sc = true ∨ sc = "N/A" ∨ sc = "Error") ∧
        (∀ (j : Nat) (p : String × LigandRun), ps[j]? = some p →
          ∃ sc, scores[j]? = some sc ∧
            List.IsInfix [Event.vinaRun (i + j + 1) c, Event.writeRow p.1 sc]
              (dockLoop folder receptor c i ps).1) := by
  intro ps
  induction ps with
  | nil =>
    intro i _ _
    refine ⟨[], rfl, rfl, by simp [dockLoop, rowsOf], by simp, ?_⟩
    intro j p h
    simp at h
  | cons p rest ih =>
    intro i hconv hlog
    have hc : p.2.convExit = 0 := hconv p (List.mem_cons_self _ _)
    have hw : WellFormedLog p.2.logLines := hlog p (List.mem_cons_self _ _)
    obtain ⟨t, ht, htc⟩ := dockScore_wellFormed hw
    obtain ⟨scores', hlen, herr, hrows, hcls, hinf⟩ :=
      ih (i + 1) (fun q hq => hconv q (List.mem_cons_of_mem _ hq))
        (fun q hq => hlog q (List.mem_cons_of_mem _ hq))
    have hone :
        dockOne folder receptor c i p.1 p.2 =
          ([Event.convertLigand (i + 1), Event.vinaRun (i + 1) c] ++
            rowAndCombine folder receptor i p.1 t, none) :=
      dockOne_ok hc ht
    have htr :
        dockLoop folder receptor c i (p :: rest) =
          (([Event.convertLigand (i + 1), Event.vinaRun (i + 1) c] ++
              rowAndCombine folder receptor i p.1 t) ++
            (dockLoop folder receptor c (i + 1) rest).1,
            (dockLoop folder receptor c (i + 1) rest).2) := by
      rw [dockLoop, hone]
    refine ⟨t :: scores', by simp [hlen], ?_, ?_, ?_, ?_⟩
    · rw [htr]
      exact herr
    · rw [htr]
      simp only [rowsOf_append, rowsOf_chunk, hrows, List.map_cons, List.zip_cons_cons]
      rfl
    · intro sc hsc
      rcases List.mem_cons.mp hsc with h | h
      · subst h; exact htc
      · exact hcls sc h
    · intro j q hq
      cases j with
      | zero =>
        simp at hq
        subst hq
        refine ⟨t, by simp, ?_⟩
        rw [htr]
        refine ⟨[Event.convertLigand (i + 1)],
          [Event.reinit,
           Event.loadFile (receptor_pdb_path folder receptor),
           Event.loadFile (vina_out_path folder i),
           Event.saveFile (best_pose_path folder receptor i)] ++
            (dockLoop folder receptor c (i + 1) rest).1, ?_⟩
        simp [rowAndCombine]
      | succ j' =>
        simp only [List.getElem?_cons_succ] at hq
        obtain ⟨sc, hsc, pre, post, heq⟩ := hinf j' q hq
        refine ⟨sc, by simpa using hsc, ?_⟩
        have harith : i + (j' + 1) + 1 = i + 1 + j' + 1 := by omega
        rw [htr, harith]
        exact ⟨([Event.convertLigand (i + 1), Event.vinaRun (i + 1) c] ++
            rowAndCombine folder receptor i p.1 t) ++ pre, post, by
          rw [← heq]; simp⟩

/-! Claim theorems. -/

/-- Claim C3: generate_minimized_pdb returns False (without raising) on
an unparseable SMILES string; a failure of embedding, optimization or
sanitization is caught and reported as False; and exactly on full
success the conformer file is written to the destination path and True
is returned.  (The function is total, so no exception escapes it.) -/
theorem C3_generate_minimized_pdb_safety (o : LigPrepOracle) (p : String) :
    (o.parseOk = false → generate_minimized_pdb o p = (false, [])) ∧
    ((o.embedOk = false ∨ o.optimizeOk = false ∨ o.sanitizeOk = false) →
      (generate_minimized_pdb o p).1 = false) ∧
    ((generate_minimized_pdb o p).1 = true ↔
      o.parseOk = true ∧ o.embedOk = true ∧ o.optimizeOk = true ∧
        o.sanitizeOk = true) ∧
    ((generate_minimized_pdb o p).1 = true →
      (generate_minimized_pdb o p).2 = [p]) ∧
    ((generate_minimized_pdb o p).1 = false →
      (generate_minimized_pdb o p).2 = []) := by
  rcases o with ⟨p1, p2, p3, p4⟩
  cases p1 <;> cases p2 <;> cases p3 <;> cases p4 <;>
    simp [generate_minimized_pdb]

/-- Witness for C3 at concrete oracles: a malformed SMILES yields
(False, no file); a fully successful preparation writes the file. -/
theorem C3_generate_minimized_pdb_safety_witness :
    generate_minimized_pdb ⟨false, true, true, true⟩ "docking_results/ligand_1.pdb" =
      (false, []) ∧
    generate_minimized_pdb ⟨true, true, true, true⟩ "docking_results/ligand_1.pdb" =
      (true, ["docking_results/ligand_1.pdb"]) := by
  have h := C3_generate_minimized_pdb_safety ⟨false, true, true, true⟩
    "docking_results/ligand_1.pdb"
  exact ⟨h.1 rfl, by decide⟩

/-- Claim C4: remove_hetatm keeps exactly the input lines that do not
start with the literal prefix "HETATM", unchanged and in their original
order: it equals a pure line filter, its output is a sublist of its
input (order preserved, lines unmodified), and each line's multiplicity
is preserved exactly when it is not a HETATM record and is zero
otherwise. -/
theorem C4_remove_hetatm_pure_filter (lines : List String) :
    remove_hetatm lines = lines.filter (fun l => !(py_startswith l "HETATM")) ∧
    List.Sublist (remove_hetatm lines) lines ∧
    ∀ l : String, (remove_hetatm lines).count l =
      if py_startswith l "HETATM" then 0 else lines.count l := by
  have heq : remove_hetatm lines =
      lines.filter (fun l => !(py_startswith l "HETATM")) := by
    induction lines with
    | nil => rfl
    | cons a tl ih =>
      by_cases h : py_startswith a "HETATM" = true
      · simp [remove_hetatm, List.filter, h, ih]
      · simp only [Bool.not_eq_true] at h
        simp [remove_hetatm, List.filter, h, ih]
  refine ⟨heq, heq ▸ List.filter_sublist _, ?_⟩
  intro l
  rw [heq]
  by_cases hl : py_startswith l "HETATM" = true
  · rw [if_pos hl, List.count_eq_zero]
    intro hm
    rw [List.mem_filter] at hm
    simp [hl] at hm
  · rw [if_neg hl]
    exact List.count_filter (by simp [hl])

/-- Every docking iteration begins by invoking the ligand converter. -/
lemma dockOne_convert_mem (folder receptor : String) (c : Center) (i : Nat)
    (s : String) (r : LigandRun) :
    Event.convertLigand (i + 1) ∈ (dockOne folder receptor c i s r).1 := by
  unfold dockOne
  cases convert_pdb_to_pdbqt_ligand r.convExit with
  | error e => simp
  | ok u =>
    cases dockScore r with
    | error e => simp
    | ok t => simp [rowAndCombine]

/-- The first ligand of a non-empty docking loop is always attempted:
its conversion event is in the trace. -/
lemma dockLoop_cons_convert_mem (folder receptor : String) (c : Center)
    (i : Nat) (p : String × LigandRun) (rest : List (String × LigandRun)) :
    Event.convertLigand (i + 1) ∈ (dockLoop folder receptor c i (p :: rest)).1 := by
  rw [dockLoop]
  cases hd : dockOne folder receptor c i p.1 p.2 with
  | mk evs err =>
    have hm : Event.convertLigand (i + 1) ∈ evs := by
      have h := dockOne_convert_mem folder receptor c i p.1 p.2
      rw [hd] at h
      exact h
    cases err with
    | none => simp [hm]
    | some e => simp [hm]

/-- Counterexample to claim C5 as stated: in the log line
" 1 -7.0 0.0 0.0" the leading whitespace-token is exactly "1" and the
second field is "-7.0", so under the claim's rule the recorded score
would be "-7.0"; the code's prefix test (three spaces then '1') does not
match this line, and the recorded score is the sentinel "N/A". -/
theorem C5_counterexample_leading_token_rule :
    claimScore [" 1 -7.0 0.0 0.0"] = some "-7.0" ∧
    (pySplit " 1 -7.0 0.0 0.0").head? = some "1" ∧
    scoreFromLog [" 1 -7.0 0.0 0.0"] = Except.ok "N/A" ∧
    Event.writeRow "CCO" "N/A" ∈
      (dockOne "docking_results" "1ABC" ("0", "0", "0") 0 "CCO"
        ⟨0, 0, [" 1 -7.0 0.0 0.0"]⟩).1 := by
  decide

/-- Claim C5 as amended: for a ligand whose conversion and docking both
exit zero, the recorded score is the second whitespace-separated field
of the first log line starting with the literal prefix of three spaces
followed by '1' (raising IndexError when that line has fewer than two
fields), and "N/A" when no such line exists; any extracted score is the
one written to the ligand's result row. -/
theorem C5_amended_three_space_rule (folder receptor : String) (c : Center)
    (i : Nat) (smiles : String) (r : LigandRun)
    (hc : r.convExit = 0) (hv : r.vinaExit = 0) :
    scoreFromLog r.logLines =
      (match r.logLines.find? (fun l => py_startswith l "   1") with
       | none => Except.ok "N/A"
       | some l =>
         match (pySplit l)[1]? with
         | some t => Except.ok t
         | none => Except.error "IndexError") ∧
    (∀ t, scoreFromLog r.logLines = Except.ok t →
      Event.writeRow smiles t ∈ (dockOne folder receptor c i smiles r).1) := by
  constructor
  · rw [scoreFromLog, findScoreLine_eq_find]
  · intro t ht
    have hds : dockScore r = Except.ok t := by
      simp [dockScore, run_command_with_output, hv, ht]
    rw [dockOne_ok hc hds]
    simp [rowAndCombine]

/-- Witness for the amended C5 on a realistic vina log. -/
theorem C5_amended_three_space_rule_witness :
    Event.writeRow "CCO" "-7.5" ∈
      (dockOne "docking_results" "1ABC" ("0", "0", "0") 0 "CCO"
        ⟨0, 0, ["   1       -7.5      0.000      0.000"]⟩).1 := by
  have h := C5_amended_three_space_rule "docking_results" "1ABC" ("0", "0", "0")
    0 "CCO" ⟨0, 0, ["   1       -7.5      0.000      0.000"]⟩ rfl rfl
  exact h.2 "-7.5" (by decide)

/-- Claim C6: a non-zero vina exit for one ligand does not abort the
run: its row records the sentinel "Error", the loop's remaining trace
and final outcome are exactly those of the remaining ligands, and the
next ligand (when present) is in fact attempted. -/
theorem C6_vina_failure_isolated (folder receptor : String) (c : Center)
    (i : Nat) (s : String) (r : LigandRun) (rest : List (String × LigandRun))
    (hc : r.convExit = 0) (hv : r.vinaExit ≠ 0) :
    (dockOne folder receptor c i s r).1 =
      [Event.convertLigand (i + 1), Event.vinaRun (i + 1) c] ++
        rowAndCombine folder receptor i s "Error" ∧
    Event.writeRow s "Error" ∈ (dockLoop folder receptor c i ((s, r) :: rest)).1 ∧
    (dockLoop folder receptor c i ((s, r) :: rest)).1 =
      (dockOne folder receptor c i s r).1 ++
        (dockLoop folder receptor c (i + 1) rest).1 ∧
    (dockLoop folder receptor c i ((s, r) :: rest)).2 =
      (dockLoop folder receptor c (i + 1) rest).2 ∧
    (∀ p' rest', rest = p' :: rest' →
      Event.convertLigand (i + 2) ∈ (dockLoop folder receptor c i ((s, r) :: rest)).1) := by
  have hds : dockScore r = Except.ok "Error" := by
    simp [dockScore, run_command_with_output, hv]
  have hone : dockOne folder receptor c i s r =
      ([Event.convertLigand (i + 1), Event.vinaRun (i + 1) c] ++
        rowAndCombine folder receptor i s "Error", none) :=
    dockOne_ok hc hds
  have htr : dockLoop folder receptor c i ((s, r) :: rest) =
      (([Event.convertLigand (i + 1), Event.vinaRun (i + 1) c] ++
          rowAndCombine folder receptor i s "Error") ++
        (dockLoop folder receptor c (i + 1) rest).1,
        (dockLoop folder receptor c (i + 1) rest).2) := by
    rw [dockLoop, hone]
  refine ⟨by rw [hone], ?_, ?_, ?_, ?_⟩
  · rw [htr]
    simp [rowAndCombine]
  · rw [htr, hone]
  · rw [htr]
  · intro p' rest' hrest
    subst hrest
    rw [htr]
    have h := dockLoop_cons_convert_mem folder receptor c (i + 1) p' rest'
    simp only [List.mem_append]
    right
    exact h

/-- Witness for C6: with a failing vina for the first ligand, the first
row is (CCO, Error) and the second ligand is still converted. -/
theorem C6_vina_failure_isolated_witness :
    Event.writeRow "CCO" "Error" ∈
      (dockLoop "docking_results" "1ABC" ("0", "0", "0") 0
        [("CCO", ⟨0, 1, []⟩), ("CCN", ⟨0, 0, []⟩)]).1 ∧
    Event.convertLigand 2 ∈
      (dockLoop "docking_results" "1ABC" ("0", "0", "0") 0
        [("CCO", ⟨0, 1, []⟩), ("CCN", ⟨0, 0, []⟩)]).1 := by
  have h := C6_vina_failure_isolated "docking_results" "1ABC" ("0", "0", "0")
    0 "CCO" ⟨0, 1, []⟩ [("CCN", ⟨0, 0, []⟩)] rfl (by decide)
  exact ⟨h.2.1, h.2.2.2.2 ("CCN", ⟨0, 0, []⟩) [] rfl⟩

/-- Claim C7: a non-zero exit of the external format converter is fatal.
The conversion wrappers raise CalledProcessError (check=True) for any
non-zero status; a ligand conversion failure ends the docking loop at
that ligand with the exception propagating — no row is written for it or
for any later ligand — and a receptor conversion failure aborts the run
before any ligand is processed. -/
theorem C7_conversion_failure_fatal (n : Nat) (folder receptor : String)
    (c : Center) (i : Nat) (s : String) (r : LigandRun)
    (rest : List (String × LigandRun)) (w : RunWorld) (sl : List String)
    (pid : String) (cc : Center)
    (hn : n ≠ 0) (hr : r.convExit ≠ 0)
    (hpk : w.prankExists = true) (hp2 : w.p2rankExit = 0)
    (hcent : getCenter w.predictions = Except.ok cc) (hrc : w.recConvExit ≠ 0) :
    convert_pdb_to_pdbqt_receptor n = Except.error "CalledProcessError" ∧
    convert_pdb_to_pdbqt_ligand n = Except.error "CalledProcessError" ∧
    dockLoop folder receptor c i ((s, r) :: rest) =
      ([Event.convertLigand (i + 1)], some "CalledProcessError") ∧
    rowsOf (dockLoop folder receptor c i ((s, r) :: rest)).1 = [] ∧
    perform_docking w sl pid = ([], some "CalledProcessError") := by
  have hlig : convert_pdb_to_pdbqt_ligand r.convExit =
      Except.error "CalledProcessError" := by
    simp [convert_pdb_to_pdbqt_ligand, subprocessRunCheck, hr]
  have hone : dockOne folder receptor c i s r =
      ([Event.convertLigand (i + 1)], some "CalledProcessError") := by
    rw [dockOne, hlig]
  have hloop : dockLoop folder receptor c i ((s, r) :: rest) =
      ([Event.convertLigand (i + 1)], some "CalledProcessError") := by
    rw [dockLoop, hone]
  refine ⟨by simp [convert_pdb_to_pdbqt_receptor, subprocessRunCheck, hn],
    by simp [convert_pdb_to_pdbqt_ligand, subprocessRunCheck, hn],
    hloop, by rw [hloop]; simp [rowsOf], ?_⟩
  rw [perform_docking]
  have hrec : convert_pdb_to_pdbqt_receptor w.recConvExit =
      Except.error "CalledProcessError" := by
    simp [convert_pdb_to_pdbqt_receptor, subprocessRunCheck, hrc]
  simp [hpk, hp2, subprocessRunCheck, hcent, hrec]

/-- Witness for C7 at concrete inputs. -/
theorem C7_conversion_failure_fatal_witness :
    dockLoop "docking_results" "1ABC" ("0", "0", "0") 0
      [("CCO", ⟨1, 0, []⟩), ("CCN", ⟨0, 0, []⟩)] =
      ([Event.convertLigand 1], some "CalledProcessError") ∧
    perform_docking
      ⟨[⟨true, true, true, true⟩], true, 0,
        ⟨["   center_x", "   center_y", "   center_z"], [["1.5", "2.5", "3.5"]]⟩,
        2, [⟨0, 0, []⟩]⟩
      ["CCO"] "1ABC" = ([], some "CalledProcessError") := by
  have h := C7_conversion_failure_fatal 2 "docking_results" "1ABC"
    ("0", "0", "0") 0 "CCO" ⟨1, 0, []⟩ [("CCN", ⟨0, 0, []⟩)]
    ⟨[⟨true, true, true, true⟩], true, 0,
      ⟨["   center_x", "   center_y", "   center_z"], [["1.5", "2.5", "3.5"]]⟩,
      2, [⟨0, 0, []⟩]⟩
    ["CCO"] "1ABC" ("1.5", "2.5", "3.5")
    (by decide) (by decide) rfl rfl (by decide) (by decide)
  exact ⟨h.2.2.1, h.2.2.2.2⟩

/-- Claim C10: whenever a ligand's result row is written — that is, in
both the exit-zero and the non-zero-exit branch, as long as no exception
was raised earlier in the iteration — the iteration continues by
loading the cleaned receptor and the ligand's vina output pose and
saving the combined best-pose file, in that order, after the row write. -/
theorem C10_best_pose_always_saved (folder receptor : String) (c : Center)
    (i : Nat) (smiles t : String) (r : LigandRun)
    (hc : r.convExit = 0) (ht : dockScore r = Except.ok t) :
    (r.vinaExit ≠ 0 → t = "Error") ∧
    dockOne folder receptor c i smiles r =
      ([Event.convertLigand (i + 1), Event.vinaRun (i + 1) c,
        Event.writeRow smiles t, Event.reinit,
        Event.loadFile (receptor_pdb_path folder receptor),
        Event.loadFile (vina_out_path folder i),
        Event.saveFile (best_pose_path folder receptor i)], none) := by
  constructor
  · intro hv
    have herr : dockScore r = Except.ok "Error" := by
      simp [dockScore, run_command_with_output, hv]
    have := ht.symm.trans herr
    simpa using this
  · rw [dockOne_ok hc ht]
    simp [rowAndCombine]

/-- Witness for C10: the best-pose file is saved both after a successful
docking and after a vina failure. -/
theorem C10_best_pose_always_saved_witness :
    Event.saveFile "docking_results/1ABC_ligand_1_best.pdb" ∈
      (dockOne "docking_results" "1ABC" ("0", "0", "0") 0 "CCO" ⟨0, 1, []⟩).1 := by
  have h := C10_best_pose_always_saved "docking_results" "1ABC" ("0", "0", "0")
    0 "CCO" "Error" ⟨0, 1, []⟩ rfl (by decide)
  rw [h.2]
  decide

/-- Claim C2 fails on the code: with the single malformed input
"not-a-smiles" the preparation stage rejects it (valid_smiles is empty
and no ligand pdb file is written), yet the docking loop — which
iterates over smiles_list, not over the computed-but-unused
valid_smiles — still invokes the ligand converter for index 1; with the
converter failing on the missing input file (check=True), the whole run
aborts with CalledProcessError instead of continuing. -/
theorem C2_malformed_smiles_reaches_docking_loop :
    valid_smiles ["not-a-smiles"] [⟨false, true, true, true⟩] = [] ∧
    prep_files ["not-a-smiles"] [⟨false, true, true, true⟩] = [] ∧
    Event.convertLigand 1 ∈
      (perform_docking
        ⟨[⟨false, true, true, true⟩], true, 0,
          ⟨["   center_x", "   center_y", "   center_z"], [["1.5", "2.5", "3.5"]]⟩,
          0, [⟨1, 0, []⟩]⟩
        ["not-a-smiles"] "1ABC").1 ∧
    (perform_docking
      ⟨[⟨false, true, true, true⟩], true, 0,
        ⟨["   center_x", "   center_y", "   center_z"], [["1.5", "2.5", "3.5"]]⟩,
        0, [⟨1, 0, []⟩]⟩
      ["not-a-smiles"] "1ABC").2 = some "CalledProcessError" := by
  decide

/-- Claim C9 fails on the code: the visualizer's first pass for ligand
index 0 loads docking_results/1ABC_ligand_1.pdbqt — a file name no stage
of the pipeline ever produces — and does not load the docking driver's
pose artifact docking_results/ligand_1_out.pdbqt, which is the file the
driver both passes to vina as --out and itself loads when building the
best-pose file. -/
theorem C9_visualizer_loads_wrong_pose_file :
    Event.loadFile "docking_results/1ABC_ligand_1.pdbqt" ∈
      visualize_pass1 1 "1ABC" "docking_results" ∧
    Event.loadFile (vina_out_path "docking_results" 0) ∉
      visualize_pass1 1 "1ABC" "docking_results" ∧
    vina_out_path "docking_results" 0 = "docking_results/ligand_1_out.pdbqt" ∧
    Event.loadFile (vina_out_path "docking_results" 0) ∈
      (dockOne "docking_results" "1ABC" ("0", "0", "0") 0 "CCO" ⟨0, 0, []⟩).1 ∧
    visualize_results ["CCO"] "1ABC" "docking_results" =
      visualize_pass1 1 "1ABC" "docking_results" ++
        visualize_pass2 1 "1ABC" "docking_results" := by
  decide

/-- Claim C8: after a successful p2rank invocation the pocket center is
read from the first data row of the predictions table under the three
column names that carry three leading spaces; every vina invocation of
the run carries exactly that center; and with zero data rows the center
extraction raises and the run aborts with an uncaught exception instead
of defaulting. -/
theorem C8_pocket_center_first_row (w : RunWorld) (sl : List String)
    (pid : String)
    (hpk : w.prankExists = true) (hp2 : w.p2rankExit = 0) :
    (w.predictions.rows = [] →
      getCenter w.predictions = Except.error "KeyError" ∨
      getCenter w.predictions = Except.error "IndexError") ∧
    (w.predictions.rows = [] →
      ∃ e, perform_docking w sl pid = ([], some e)) ∧
    (∀ row rest jx jy jz x y z,
      w.predictions.rows = row :: rest →
      colIndex w.predictions.headers "   center_x" = some jx → row[jx]? = some x →
      colIndex w.predictions.headers "   center_y" = some jy → row[jy]? = some y →
      colIndex w.predictions.headers "   center_z" = some jz → row[jz]? = some z →
      getCenter w.predictions = Except.ok (x, y, z) ∧
      (∀ (k : Nat) (c' : Center),
        Event.vinaRun k c' ∈ (perform_docking w sl pid).1 → c' = (x, y, z))) := by
  have hcell : ∀ name, w.predictions.rows = [] →
      colCell w.predictions name 0 = Except.error "KeyError" ∨
      colCell w.predictions name 0 = Except.error "IndexError" := by
    intro name hrows
    unfold colCell
    cases colIndex w.predictions.headers name with
    | none => left; rfl
    | some j => right; rw [hrows]; rfl
  have hget : w.predictions.rows = [] →
      getCenter w.predictions = Except.error "KeyError" ∨
      getCenter w.predictions = Except.error "IndexError" := by
    intro hrows
    unfold getCenter
    rcases hcell "   center_x" hrows with h | h <;> rw [h]
    · left; rfl
    · right; rfl
  refine ⟨hget, ?_, ?_⟩
  · intro hrows
    rcases hget hrows with h | h
    · exact ⟨"KeyError", by rw [perform_docking]; simp [hpk, hp2, subprocessRunCheck, h]⟩
    · exact ⟨"IndexError", by rw [perform_docking]; simp [hpk, hp2, subprocessRunCheck, h]⟩
  · intro row rest jx jy jz x y z hrows hjx hx hjy hy hjz hz
    have hcx : colCell w.predictions "   center_x" 0 = Except.ok x := by
      unfold colCell
      rw [hjx, hrows]
      simp [hx]
    have hcy : colCell w.predictions "   center_y" 0 = Except.ok y := by
      unfold colCell
      rw [hjy, hrows]
      simp [hy]
    have hcz : colCell w.predictions "   center_z" 0 = Except.ok z := by
      unfold colCell
      rw [hjz, hrows]
      simp [hz]
    have hok : getCenter w.predictions = Except.ok (x, y, z) := by
      unfold getCenter
      rw [hcx, hcy, hcz]
    refine ⟨hok, ?_⟩
    intro k c' hmem
    rw [perform_docking] at hmem
    by_cases hrc : w.recConvExit = 0
    · have hrec : convert_pdb_to_pdbqt_receptor w.recConvExit = Except.ok () := by
        simp [convert_pdb_to_pdbqt_receptor, subprocessRunCheck, hrc]
      simp only [hpk, hp2, subprocessRunCheck, hok, hrec, reduceIte,
        Bool.true_eq_false] at hmem
      exact dockLoop_vina_center _ _ hmem
    · have hrec : convert_pdb_to_pdbqt_receptor w.recConvExit =
          Except.error "CalledProcessError" := by
        simp [convert_pdb_to_pdbqt_receptor, subprocessRunCheck, hrc]
      simp only [hpk, hp2, subprocessRunCheck, hok, hrec, reduceIte,
        Bool.true_eq_false] at hmem
      simp at hmem

/-- Witness for C8 on a concrete predictions table: the center is the
first row's three whitespace-named cells, and on the empty table the
extraction errors. -/
theorem C8_pocket_center_first_row_witness :
    getCenter ⟨["  name", "   rank", "   center_x", "   center_y", "   center_z"],
      [["pocket1", "1", "1.5", "2.5", "3.5"], ["pocket2", "2", "9.9", "9.9", "9.9"]]⟩ =
      Except.ok ("1.5", "2.5", "3.5") ∧
    (∃ e, perform_docking
      ⟨[], true, 0, ⟨["   center_x", "   center_y", "   center_z"], []⟩, 0, []⟩
      [] "1ABC" = ([], some e)) := by
  constructor
  · exact ((C8_pocket_center_first_row
      ⟨[], true, 0,
        ⟨["  name", "   rank", "   center_x", "   center_y", "   center_z"],
          [["pocket1", "1", "1.5", "2.5", "3.5"], ["pocket2", "2", "9.9", "9.9", "9.9"]]⟩,
        0, []⟩ [] "1ABC" rfl rfl).2.2
      ["pocket1", "1", "1.5", "2.5", "3.5"] [["pocket2", "2", "9.9", "9.9", "9.9"]]
      2 3 4 "1.5" "2.5" "3.5" rfl (by decide) (by decide) (by decide) (by decide)
      (by decide) (by decide)).1
  · exact (C8_pocket_center_first_row
      ⟨[], true, 0, ⟨["   center_x", "   center_y", "   center_z"], []⟩, 0, []⟩
      [] "1ABC" rfl rfl).2.1 rfl

/-- Claim C1: in a run whose external phases succeed (p2rank ran, the
predictions table yielded a center, the receptor and every ligand
conversion exited zero) and whose engine logs obey the vina output
contract, perform_docking raises nothing and the result table consists
of the single header line "SMILES,Docking Score" followed by exactly one
comma-joined row per input SMILES, in input order, never more and never
fewer; each score is a numeric string, "N/A" or "Error"; and each
ligand's row is written immediately after that ligand's docking attempt
(its vina invocation) concludes. -/
theorem C1_results_table (w : RunWorld) (smiles_list : List String)
    (PDB_ID : String) (c : Center)
    (hn : w.ligandRuns.length = smiles_list.length)
    (hpk : w.prankExists = true) (hp2 : w.p2rankExit = 0)
    (hcent : getCenter w.predictions = Except.ok c)
    (hrc : w.recConvExit = 0)
    (hconv : ∀ r ∈ w.ligandRuns, r.convExit = 0)
    (hlog : ∀ r ∈ w.ligandRuns, WellFormedLog r.logLines) :
    (perform_docking w smiles_list PDB_ID).2 = none ∧
    ∃ scores : List String,
      scores.length = smiles_list.length ∧
      rowsOf (perform_docking w smiles_list PDB_ID).1 = smiles_list.zip scores ∧
      (∀ sc ∈ scores, isNumericStr sc = true ∨ sc = "N/A" ∨ sc = "Error") ∧
      results_file (perform_docking w smiles_list PDB_ID).1 =
        "SMILES,Docking Score" ::
          (smiles_list.zip scores).map (fun p => p.1 ++ "," ++ p.2) ∧
      (∀ (j : Nat) (s : String) (r : LigandRun),
        smiles_list[j]? = some s → w.ligandRuns[j]? = some r →
        ∃ sc, scores[j]? = some sc ∧
          List.IsInfix [Event.vinaRun (j + 1) c, Event.writeRow s sc]
            (perform_docking w smiles_list PDB_ID).1) := by
  have hrec : convert_pdb_to_pdbqt_receptor w.recConvExit = Except.ok () := by
    simp [convert_pdb_to_pdbqt_receptor, subprocessRunCheck, hrc]
  have hperf : perform_docking w smiles_list PDB_ID =
      dockLoop "docking_results" PDB_ID c 0 (smiles_list.zip w.ligandRuns) := by
    rw [perform_docking]
    simp [hpk, hp2, subprocessRunCheck, hcent, hrec]
  have hps_conv : ∀ p ∈ smiles_list.zip w.ligandRuns, (p.2).convExit = 0 := by
    intro p hp
    obtain ⟨a, b⟩ := p
    exact hconv b (List.of_mem_zip hp).2
  have hps_log : ∀ p ∈ smiles_list.zip w.ligandRuns, WellFormedLog (p.2).logLines := by
    intro p hp
    obtain ⟨a, b⟩ := p
    exact hlog b (List.of_mem_zip hp).2
  obtain ⟨scores, hslen, herr, hrows, hcls, hinf⟩ :=
    @dockLoop_ok "docking_results" PDB_ID c
      (smiles_list.zip w.ligandRuns) 0 hps_conv hps_log
  have hzlen : (smiles_list.zip w.ligandRuns).length = smiles_list.length := by
    rw [List.length_zip, hn]
    exact Nat.min_self _
  have hmapfst : (smiles_list.zip w.ligandRuns).map Prod.fst = smiles_list :=
    List.map_fst_zip _ _ (le_of_eq hn.symm)
  refine ⟨by rw [hperf]; exact herr, scores, by rw [hslen, hzlen], ?_, hcls, ?_, ?_⟩
  · rw [hperf, hrows, hmapfst]
  · rw [hperf, results_file, hrows, hmapfst]
  · intro j s r hs hr
    have hp : (smiles_list.zip w.ligandRuns)[j]? = some (s, r) :=
      getElem?_zip_some _ _ j s r hs hr
    obtain ⟨sc, hsc, hif⟩ := hinf j (s, r) hp
    refine ⟨sc, hsc, ?_⟩
    rw [hperf]
    simpa using hif

/-- Witness for C1: a two-ligand run, one successful docking with a
well-formed log and one vina failure, ends without exception. -/
theorem C1_results_table_witness :
    (perform_docking
      ⟨[⟨true, true, true, true⟩, ⟨true, true, true, true⟩], true, 0,
        ⟨["   center_x", "   center_y", "   center_z"], [["1.5", "2.5", "3.5"]]⟩,
        0, [⟨0, 0, ["   1       -7.5      0.000      0.000"]⟩, ⟨0, 1, []⟩]⟩
      ["CCO", "CCN"] "1ABC").2 = none := by
  refine (C1_results_table
    ⟨[⟨true, true, true, true⟩, ⟨true, true, true, true⟩], true, 0,
      ⟨["   center_x", "   center_y", "   center_z"], [["1.5", "2.5", "3.5"]]⟩,
      0, [⟨0, 0, ["   1       -7.5      0.000      0.000"]⟩, ⟨0, 1, []⟩]⟩
    ["CCO", "CCN"] "1ABC" ("1.5", "2.5", "3.5")
    (by decide) rfl rfl (by decide) rfl (by decide) ?_).1
  intro r hr
  simp only [List.mem_cons, List.not_mem_nil, or_false] at hr
  rcases hr with h | h <;> subst h
  · intro l hl hpre
    simp only [List.mem_cons, List.not_mem_nil, or_false] at hl
    subst hl
    exact ⟨"-7.5", by decide, by decide⟩
  · intro l hl hpre
    simp at hl
end Cadock
